import Mathlib

/-!
Verification of the theme-mode negotiation and hydration-safe rendering
behaviour found in
`docs/data/material/getting-started/templates/sign-in-side/SignInSide.js`
(the `SignInSide` React component together with the dark-mode guide's
embedded code snippets: the `ModeToggle` component, its hydration guard,
and the described `useColorScheme` hook of the theme provider).

The embedding keeps JavaScript string values as Lean `String`s where the
source manipulates raw strings (the `SignInSide` component), and uses an
enumerated `Mode` type for the tri-state value {light, dark, system} of
the theme-mode controller described by the documentation.
-/

namespace SignInSide

/-- JavaScript mode strings used by `SignInSide`:
`const [mode, setMode] = React.useState('light')`. The component state is
the pair of its two `useState` slots. -/
structure SignInSideState where
  mode : String
  showCustomTheme : Bool
deriving DecidableEq, Repr

/-- `React.useState('light')` and `React.useState(true)`: the initial
component state of `SignInSide`. -/
def initialState : SignInSideState :=
  { mode := "light", showCustomTheme := true }

/-- `setMode((prev) => (prev === 'dark' ? 'light' : 'dark'))`:
the updater passed to `setMode` by `toggleColorMode`. -/
def toggleColorMode (prev : String) : String :=
  if prev = "dark" then "light" else "dark"

/-- `setShowCustomTheme((prev) => !prev)`: the updater passed by
`toggleCustomTheme`. -/
def toggleCustomTheme (prev : Bool) : Bool :=
  !prev

/-- The two UI events `SignInSide` reacts to: a click on the color-mode
toggle and a click on the custom-theme toggle group. -/
inductive SEvent where
  | toggleColor
  | toggleCustom
deriving DecidableEq, Repr

/-- One event step of the `SignInSide` component: each handler updates
exactly one `useState` slot with its updater function. -/
def step (s : SignInSideState) : SEvent → SignInSideState
  | .toggleColor => { s with mode := toggleColorMode s.mode }
  | .toggleCustom => { s with showCustomTheme := toggleCustomTheme s.showCustomTheme }

/-- Run a sequence of UI events from the initial component state. -/
def run (events : List SEvent) : SignInSideState :=
  events.foldl step initialState

/-- The two theme objects `SignInSide` can pass to `ThemeProvider`:
`createTheme(getSignInSideTheme(mode))` and
`createTheme({ palette: { mode } })`. -/
inductive ThemeChoice where
  | signInSideTheme
  | defaultTheme
deriving DecidableEq, Repr

/-- `theme={showCustomTheme ? SignInSideTheme : defaultTheme}`: the theme
selected by the `ThemeProvider` line. -/
def themeChoice (showCustomTheme : Bool) : ThemeChoice :=
  if showCustomTheme then .signInSideTheme else .defaultTheme

/-- The two background gradients of the main `Stack`:
`theme.palette.mode === 'light' ? <light gradient> : <dark gradient>`. -/
def backgroundImage (paletteMode : String) : String :=
  if paletteMode = "light" then
    "radial-gradient(ellipse at 70% 51%, hsl(210, 100%, 97%), hsl(0, 0%, 100%))"
  else
    "radial-gradient(at 70% 51%, hsla(210, 100%, 16%, 0.5), hsl(220, 30%, 5%))"

end SignInSide

namespace ThemeMode

/-- The tri-state mode value {light, dark, system} of the theme-mode
controller described in the dark-mode guide. -/
inductive Mode where
  | light
  | dark
  | system
deriving DecidableEq, Repr

/-- Modelled from the spec: the internals of the `useColorScheme` /
`CssVarsProvider` theme-mode controller are not part of this fragment
(only the guide's description and call sites are under `docs/`).
Persistent controller state: the single on-device storage slot holding
the serialized Mode (empty when nothing was ever persisted) together with
the configured `defaultMode` of the provider. -/
structure ControllerState where
  stored : Option Mode
  defaultMode : Mode
deriving DecidableEq, Repr

/-- Modelled from the spec: `getMode()` returns the current stored value;
it defaults to the configured default when no value was persisted. -/
def getMode (s : ControllerState) : Mode :=
  s.stored.getD s.defaultMode

/-- Modelled from the spec: `setMode(newMode)` persists `newMode` to the
on-device storage slot. -/
def setMode (s : ControllerState) (newMode : Mode) : ControllerState :=
  { s with stored := some newMode }

/-- Modelled from the spec: resolution of a Mode against the device's
current preference — identity for light/dark, device-preference lookup
for system. -/
def resolve (m : Mode) (devicePref : Mode) : Mode :=
  match m with
  | .light => .light
  | .dark => .dark
  | .system => devicePref

/-- Modelled from the spec: `getResolvedMode()` reads the current mode,
resolves it against the device preference and returns the result together
with the (unchanged) controller state — the resolved value is never
persisted. -/
def getResolvedMode (s : ControllerState) (devicePref : Mode) :
    Mode × ControllerState :=
  (resolve (getMode s) devicePref, s)

/-- Modelled from the spec: `useColorScheme()` only works with components
nested inside `CssVarsProvider` — otherwise it will throw an error. The
context argument is the provider's controller state when the caller is
nested inside the provider, and `none` otherwise. -/
def useColorScheme (ctx : Option ControllerState) :
    Except String ControllerState :=
  match ctx with
  | none => .error "useColorScheme must be called under CssVarsProvider"
  | some s => .ok s

end ThemeMode

namespace ModeToggle

open ThemeMode

/-- Local state of the hydration-guarded `ModeToggle` component from the
server-side-rendering snippet: the `mounted` flag
(`React.useState(false)`) together with the controller state and device
preference it reads through `useColorScheme`. -/
structure GuardState where
  mounted : Bool
  controller : ControllerState
  devicePref : Mode
deriving DecidableEq, Repr

/-- Initial guarded component state: `mounted` starts `false`
(`React.useState(false)`). -/
def initGuard (c : ControllerState) (p : Mode) : GuardState :=
  { mounted := false, controller := c, devicePref := p }

/-- Events observed by the guarded component: the one-time client-side
readiness effect (`React.useEffect(() => { setMounted(true); }, [])`), a
click on the toggle button
(`onClick={() => setMode(mode === 'dark' ? 'light' : 'dark')}`), and a
change of the device preference. -/
inductive GEvent where
  | readiness
  | click
  | prefChange (p : Mode)
deriving DecidableEq, Repr

/-- One event step of the guarded `ModeToggle` component. Only the
readiness effect touches `mounted`. -/
def stepGuard (s : GuardState) : GEvent → GuardState
  | .readiness => { s with mounted := true }
  | .click =>
      let target : Mode := if getMode s.controller = .dark then .light else .dark
      { s with controller := setMode s.controller target }
  | .prefChange p => { s with devicePref := p }

/-- Run a sequence of events from a guarded component state. -/
def runGuard (s : GuardState) (events : List GEvent) : GuardState :=
  events.foldl stepGuard s

/-- What the `ModeToggle` component renders: the mode-agnostic placeholder
button (`<Button variant="outlined" color="neutral" sx={{ width: 120 }} />`)
or the real toggle button with its mode-dependent label. -/
inductive Render where
  | placeholder
  | toggleButton (label : String)
deriving DecidableEq, Repr

/-- The render function of the hydration-guarded `ModeToggle`:
`if (!mounted) { return <Button ... /> }` and otherwise a button labelled
`{mode === 'dark' ? 'Turn light' : 'Turn dark'}`. -/
def render (mounted : Bool) (mode : Mode) : Render :=
  if !mounted then .placeholder
  else .toggleButton (if mode = .dark then "Turn light" else "Turn dark")

/-- Render of a whole guarded component state. -/
def renderState (s : GuardState) : Render :=
  render s.mounted (getMode s.controller)

end ModeToggle

/-! Theorems. -/

open SignInSide ThemeMode ModeToggle

/-- Once `mounted` is true it stays true under every further event:
only the readiness effect writes to `mounted` and it writes `true`. -/
theorem mounted_monotone (s : GuardState) (es : List GEvent)
    (h : s.mounted = true) : (runGuard s es).mounted = true := by
  induction es generalizing s with
  | nil => exact h
  | cons e es ih =>
      apply ih
      cases e with
      | readiness => rfl
      | click => exact h
      | prefChange p => exact h

/-- Claim C1: the Hydration Guard's `mounted` flag starts `false`, is set
to `true` only by the one-time client-readiness effect, and no sequence
of subsequent events ever sets it back to `false`. -/
theorem C1_mounted_irreversible :
    (∀ c p, (initGuard c p).mounted = false) ∧
    (∀ s : GuardState, (stepGuard s .readiness).mounted = true) ∧
    (∀ (s : GuardState) (e : GEvent),
      s.mounted = false → (stepGuard s e).mounted = true → e = .readiness) ∧
    (∀ (s : GuardState) (es : List GEvent),
      s.mounted = true → (runGuard s es).mounted = true) := by
  refine ⟨fun c p => rfl, fun s => rfl, ?_, fun s es h => mounted_monotone s es h⟩
  intro s e hfalse htrue
  cases e with
  | readiness => rfl
  | click => simp [stepGuard] at htrue; exact absurd htrue (by simp [hfalse])
  | prefChange p => simp [stepGuard] at htrue; exact absurd htrue (by simp [hfalse])

/-- Witness for C1: starting mounted with empty storage, the events
click, preference change, click leave `mounted` true. -/
theorem C1_mounted_irreversible_witness :
    (runGuard ⟨true, ⟨none, .light⟩, .dark⟩
      [.click, .prefChange .light, .click]).mounted = true :=
  C1_mounted_irreversible.2.2.2 ⟨true, ⟨none, .light⟩, .dark⟩
    [.click, .prefChange .light, .click] rfl

/-- Claim C2: resolution is the identity on the concrete modes: for every
device preference, `light` resolves to `light` and `dark` to `dark`. -/
theorem C2_resolve_identity_on_concrete (p : Mode) :
    resolve .light p = .light ∧ resolve .dark p = .dark :=
  ⟨rfl, rfl⟩

/-- Claim C3: when the stored mode is `system`, `getResolvedMode` returns
the device's current preference and leaves the controller state (hence
the storage slot) unchanged. -/
theorem C3_system_resolves_to_device_pref (s : ControllerState) (p : Mode)
    (hs : s.stored = some .system) (_hp : p = .light ∨ p = .dark) :
    (getResolvedMode s p).1 = p ∧ (getResolvedMode s p).2 = s := by
  refine ⟨?_, rfl⟩
  simp [getResolvedMode, getMode, hs, resolve]

/-- Witness for C3: default light, stored system, device prefers dark. -/
theorem C3_system_resolves_to_device_pref_witness :
    (getResolvedMode { stored := some .system, defaultMode := .light } .dark).1 = .dark ∧
    (getResolvedMode { stored := some .system, defaultMode := .light } .dark).2 =
      { stored := some .system, defaultMode := .light } :=
  C3_system_resolves_to_device_pref
    { stored := some .system, defaultMode := .light } .dark rfl (Or.inr rfl)

/-- Claim C4: `setMode` is idempotent — calling it twice with the same
mode yields the same state and the same `getMode` result as calling it
once; and after `light` is stored, `setMode dark` makes both `getMode`
and `getResolvedMode` return `dark`. -/
theorem C4_setMode_idempotent :
    (∀ (s : ControllerState) (m : Mode),
      setMode (setMode s m) m = setMode s m ∧
      getMode (setMode (setMode s m) m) = m) ∧
    (∀ (s : ControllerState) (p : Mode), s.stored = some .light →
      getMode (setMode s .dark) = .dark ∧
      (getResolvedMode (setMode s .dark) p).1 = .dark) := by
  constructor
  · intro s m
    exact ⟨rfl, rfl⟩
  · intro s p _
    exact ⟨rfl, rfl⟩

/-- Witness for C4: stored light with default light, device prefers
light; after `setMode dark` both reads return dark. -/
theorem C4_setMode_idempotent_witness :
    getMode (setMode { stored := some .light, defaultMode := .light } .dark) = .dark ∧
    (getResolvedMode (setMode { stored := some .light, defaultMode := .light } .dark)
      .light).1 = .dark :=
  C4_setMode_idempotent.2 { stored := some .light, defaultMode := .light } .light rfl

/-- Claim C5 counterexample: two mounted states with the same resolved
mode (both resolve to dark: stored system with device preference dark,
and stored dark) render different toggle buttons, so the mounted render
is not determined by the resolved mode alone. The unmounted part of the
claim does hold: the placeholder appears regardless of the stored mode. -/
theorem C5_counterexample :
    resolve (getMode ⟨some .system, .light⟩) .dark =
      resolve (getMode ⟨some .dark, .light⟩) .dark ∧
    renderState ⟨true, ⟨some .system, .light⟩, .dark⟩ ≠
      renderState ⟨true, ⟨some .dark, .light⟩, .dark⟩ := by
  constructor
  · rfl
  · intro h
    simp [renderState, render, getMode] at h

/-- Claim C5 (amended): while `mounted` is false the component renders
the placeholder regardless of the stored mode; once `mounted` is true the
output is a function of the stored mode, and for every concrete stored
mode (light or dark) it is determined by the resolved mode. -/
theorem C5_guarded_render (m1 m2 p1 p2 : Mode)
    (h1 : m1 ≠ .system) (h2 : m2 ≠ .system)
    (hres : resolve m1 p1 = resolve m2 p2) :
    (∀ m, render false m = .placeholder) ∧ render true m1 = render true m2 := by
  refine ⟨fun m => rfl, ?_⟩
  cases m1 with
  | system => exact absurd rfl h1
  | light =>
      cases m2 with
      | system => exact absurd rfl h2
      | light => rfl
      | dark => exact absurd hres (by simp [resolve])
  | dark =>
      cases m2 with
      | system => exact absurd rfl h2
      | light => exact absurd hres (by simp [resolve])
      | dark => rfl

/-- Witness for the amended C5: light and light, any preferences. -/
theorem C5_guarded_render_witness :
    (∀ m, render false m = .placeholder) ∧ render true .light = render true .light :=
  C5_guarded_render .light .light .dark .light
    (by simp) (by simp) rfl

/-- Claim C6: `useColorScheme` fails exactly when the caller is not
nested inside the provider, and the failure is the error value itself
(no recovery path); under the provider it returns the controller state. -/
theorem C6_useColorScheme_error_iff_no_provider :
    (∀ ctx, (useColorScheme ctx).isOk = ctx.isSome) ∧
    useColorScheme none =
      .error "useColorScheme must be called under CssVarsProvider" ∧
    (∀ s, useColorScheme (some s) = .ok s) := by
  refine ⟨?_, rfl, fun s => rfl⟩
  intro ctx
  cases ctx <;> rfl

/-- Claim C7: a persisted mode wins over the configured default —
changing the default alone never changes `getMode`, while clearing the
storage slot makes the default take effect. -/
theorem C7_stored_wins_over_default (m d d2 : Mode) :
    getMode { stored := some m, defaultMode := d } =
      getMode { stored := some m, defaultMode := d2 } ∧
    getMode { stored := some m, defaultMode := d } = m ∧
    getMode { stored := none, defaultMode := d } = d :=
  ⟨rfl, rfl, rfl⟩

/-- Claim C8: for every controller state, resolving against a concrete
device preference never yields `system`: the resolved mode is always
light or dark. -/
theorem C8_resolved_never_system (s : ControllerState) (p : Mode)
    (hp : p ≠ .system) :
    (getResolvedMode s p).1 = .light ∨ (getResolvedMode s p).1 = .dark := by
  unfold getResolvedMode
  cases hm : getMode s with
  | light => simp [resolve, hm]
  | dark => simp [resolve, hm]
  | system =>
      simp only [resolve, hm]
      cases p with
      | light => exact Or.inl rfl
      | dark => exact Or.inr rfl
      | system => exact absurd rfl hp

/-- Witness for C8: stored system with device preference light. -/
theorem C8_resolved_never_system_witness :
    (getResolvedMode { stored := some .system, defaultMode := .dark } .light).1 = .light ∨
    (getResolvedMode { stored := some .system, defaultMode := .dark } .light).1 = .dark :=
  C8_resolved_never_system { stored := some .system, defaultMode := .dark } .light
    (by simp)

/-- The mode slot of `SignInSide` stays in {"light", "dark"} along any
run of UI events, from any state already satisfying the invariant. -/
theorem run_mode_invariant (es : List SEvent) (s : SignInSideState)
    (h : s.mode = "light" ∨ s.mode = "dark") :
    (es.foldl step s).mode = "light" ∨ (es.foldl step s).mode = "dark" := by
  induction es generalizing s with
  | nil => exact h
  | cons e es ih =>
      apply ih
      cases e with
      | toggleColor =>
          by_cases hm : s.mode = "dark"
          · exact Or.inl (by simp [step, toggleColorMode, hm])
          · exact Or.inr (by simp [step, toggleColorMode, hm])
      | toggleCustom => exact h

/-- Claim C9: `SignInSide`'s mode starts at "light", `toggleColorMode`
maps "dark" to "light" and every other string — including "system" — to
"dark", and along every sequence of UI events the mode stays in
{"light", "dark"}. -/
theorem C9_mode_invariant :
    initialState.mode = "light" ∧
    (∀ v, toggleColorMode v = "light" ∨ toggleColorMode v = "dark") ∧
    toggleColorMode "dark" = "light" ∧
    toggleColorMode "system" = "dark" ∧
    (∀ es, (run es).mode = "light" ∨ (run es).mode = "dark") := by
  refine ⟨rfl, ?_, by decide, by decide, ?_⟩
  · intro v
    by_cases hv : v = "dark"
    · exact Or.inl (by simp [toggleColorMode, hv])
    · exact Or.inr (by simp [toggleColorMode, hv])
  · intro es
    exact run_mode_invariant es initialState (Or.inl rfl)

/-- Claim C10: on {"light", "dark"} the color-mode toggle is an
involution, the custom-theme toggle is an involution on booleans, and
applying it twice restores the selected theme (custom theme when the
flag is true, default theme when false). -/
theorem C10_toggles_involutive (m : String) (hm : m = "light" ∨ m = "dark") :
    toggleColorMode (toggleColorMode m) = m ∧
    (∀ b, toggleCustomTheme (toggleCustomTheme b) = b) ∧
    (∀ b, themeChoice (toggleCustomTheme (toggleCustomTheme b)) = themeChoice b) ∧
    themeChoice true = .signInSideTheme ∧ themeChoice false = .defaultTheme := by
  refine ⟨?_, fun b => by cases b <;> rfl, fun b => by cases b <;> rfl, rfl, rfl⟩
  cases hm with
  | inl h => subst h; decide
  | inr h => subst h; decide

/-- Witness for C10: the toggle applied twice to "dark" gives "dark". -/
theorem C10_toggles_involutive_witness :
    toggleColorMode (toggleColorMode "dark") = "dark" :=
  (C10_toggles_involutive "dark" (Or.inr rfl)).1
